import Mathlib

/-!
Verification development for the GLC Platform core
(chunker, vector store, extraction engine, rules engine, scoring engine).

Each definition is a shallow embedding of the corresponding Python
function; machine inference calls (sentence-transformer encoding, the
extractive QA pipeline and the generative model) are modelled as oracle
parameters, since their outputs are external to the control flow that is
being verified.  Floats are modelled as rationals (reals where genuine
exponentiation occurs); Python `round(x, n)` is modelled as
`⌊x·10ⁿ + 1/2⌋ / 10ⁿ` (Python uses banker's rounding, which agrees with
this except at exact ties, none of which occur in any statement below).
-/

namespace GLC

/-! ## Python string primitives -/

/-- Python whitespace characters recognised by `str.strip` / `\s` (ASCII). -/
def isPySpace (c : Char) : Bool :=
  c == ' ' || c == '\t' || c == '\n' || c == '\r' ||
  c == Char.ofNat 11 || c == Char.ofNat 12

/-- Python `pat in s` substring test, on character lists.
The empty pattern is contained in every string, as in Python. -/
def containsSub : List Char → List Char → Bool
  | s, pat =>
    pat.isPrefixOf s ||
      match s with
      | [] => false
      | _ :: t => containsSub t pat

/-- Python `pat in s` on strings. -/
def pyIn (pat s : String) : Bool := containsSub s.data pat.data

/-- Python `str.lower()` (ASCII). -/
def lowerStr (s : String) : String := ⟨s.data.map Char.toLower⟩

/-- Python `str.strip()`. -/
def pyStrip (s : String) : String :=
  ⟨((s.data.dropWhile isPySpace).reverse.dropWhile isPySpace).reverse⟩

/-- Python `len(s)`. -/
def pyLen (s : String) : Nat := s.data.length

/-- Python `s[:n]`. -/
def pyTake (s : String) (n : Nat) : String := ⟨s.data.take n⟩

/-- Python `s[n:]`. -/
def pyDrop (s : String) (n : Nat) : String := ⟨s.data.drop n⟩

/-! ## Extraction Engine (`app/ai_services/rag.py`, `RAGService`)

The FAISS search (`embedding_service.search`) and the two HuggingFace
pipelines are collaborators of `RAGService.query`; the search results and
the raw model outputs are therefore parameters of the embedded `query`. -/

/-- One retrieval result as returned by `EmbeddingService.search`. -/
structure SearchResult where
  text : String
  source : String
  score : ℚ
  deriving DecidableEq, Repr

/-- One entry of the `sources` list built by `RAGService._format_sources`. -/
structure SourceRef where
  text_snippet : String
  source : String
  score : ℚ
  deriving DecidableEq, Repr

/-- Result dict of `RAGService.query`. -/
structure QueryResult where
  question : String
  answer : String
  confidence : ℚ
  sources : List SourceRef
  deriving DecidableEq, Repr

/-- Raw output of the extractive QA pipeline on (question, context):
the `answer` and `score` fields of the pipeline result.  `none` for the
whole record models the pipeline raising an exception. -/
structure QARaw where
  answer : String
  score : ℚ
  deriving DecidableEq, Repr

/-- Python `round(x, 3)` on a rational. -/
def qRound3 (x : ℚ) : ℚ := (⌊x * 1000 + 1/2⌋ : ℚ) / 1000

/-- Python `round(x, 1)` on a rational. -/
def qRound1 (x : ℚ) : ℚ := (⌊x * 10 + 1/2⌋ : ℚ) / 10

/-- Embeds `RAGService._build_context`: accumulate stripped chunk texts up to
`max_length = 3000` characters, truncating the last included chunk to the
remaining budget when that budget exceeds 200 characters. -/
def buildContextParts : List SearchResult → Nat → List String
  | [], _ => []
  | r :: rest, total =>
    let text := pyStrip r.text
    if text = "" then buildContextParts rest total
    else if 3000 < total + pyLen text then
      if 200 < 3000 - total then [pyTake text (3000 - total)] else []
    else text :: buildContextParts rest (total + pyLen text)

/-- Embeds `RAGService._build_context` (joined with blank lines). -/
def buildContext (results : List SearchResult) : String :=
  String.intercalate "\n\n" (buildContextParts results 0)

/-- Embeds `RAGService._format_sources`. -/
def formatSources (results : List SearchResult) : List SourceRef :=
  (results.take 3).map fun r =>
    { text_snippet := pyTake r.text 200, source := r.source, score := qRound3 r.score }

/-- Character class of the regex `^[\d\.\,\(\)\[\]ivxlcdm\s]+$`. -/
def isNumRomanChar (c : Char) : Bool :=
  c.isDigit || c == '.' || c == ',' || c == '(' || c == ')' ||
  c == '[' || c == ']' ||
  c == 'i' || c == 'v' || c == 'x' || c == 'l' || c == 'c' || c == 'd' || c == 'm' ||
  isPySpace c

/-- Character class of the regex `^[\W\d]+$` (`\W` = not `[a-zA-Z0-9_]`). -/
def isNonWordOrDigit (c : Char) : Bool :=
  !(c.isAlphanum || c == '_') || c.isDigit

/-- Roman-numeral letters used in the garbage patterns `[ivx]+`. -/
def isIvx (c : Char) : Bool := c == 'i' || c == 'v' || c == 'x'

/-- Matches `^\(P+\)\.?$` for a character class `P` (used for `(i)`, `(1)`). -/
def matchParenGroup (p : Char → Bool) : List Char → Bool
  | '(' :: rest =>
    let body := rest.takeWhile p
    let tail := rest.dropWhile p
    !body.isEmpty && (tail = [')'] || tail = [')', '.'])
  | _ => false

/-- Matches `^\[[ivx]+\]\.?$`. -/
def matchBracketRoman : List Char → Bool
  | '[' :: rest =>
    let body := rest.takeWhile isIvx
    let tail := rest.dropWhile isIvx
    !body.isEmpty && (tail = [']'] || tail = [']', '.'])
  | _ => false

/-- Matches `^[a-z]\)\.?$`. -/
def matchLetterItem : List Char → Bool
  | c :: ')' :: rest => ('a' ≤ c && c ≤ 'z') && (rest = [] || rest = ['.'])
  | _ => false

/-- Matches `^•\s*$`. -/
def matchBullet : List Char → Bool
  | '•' :: rest => rest.all isPySpace
  | _ => false

/-- Matches `^\d+\.\s*$`. -/
def matchNumberDot (l : List Char) : Bool :=
  let body := l.takeWhile Char.isDigit
  match l.dropWhile Char.isDigit with
  | '.' :: rest => !body.isEmpty && rest.all isPySpace
  | _ => false

/-- Embeds `RAGService._is_valid_answer`: the answer-validity filter. -/
def isValidAnswer (answer : String) : Bool :=
  if answer = "" || pyLen (pyStrip answer) < 3 then false
  else
    let cleaned := lowerStr (pyStrip answer)
    let cs := cleaned.data
    if cs.all isNumRomanChar then false
    else if pyLen cleaned < 10 && !(cs.any Char.isAlpha) then false
    else if cs.all isNonWordOrDigit then false
    else if matchParenGroup isIvx cs || matchBracketRoman cs ||
            matchParenGroup Char.isDigit cs || matchLetterItem cs ||
            matchBullet cs || matchNumberDot cs then false
    else true

/-- Embeds `RAGService._extract_with_qa`: strip the pipeline answer and accept it
only when the pipeline score exceeds 0.5 and the answer passes the validity
filter; otherwise `(None, 0)`.  A `none` input models a pipeline exception. -/
def extractWithQA (qaRaw : Option QARaw) : Option String × ℚ :=
  match qaRaw with
  | none => (none, 0)
  | some r =>
    let answer := pyStrip r.answer
    if 1/2 < r.score ∧ isValidAnswer answer then (some answer, r.score)
    else (none, 0)

/-- Embeds `RAGService._generate_answer`: strip the generated text, remove a
leading `answer:` artifact, and return it only if it passes the validity
filter.  A `none` input models a generation exception. -/
def generateAnswer (genRaw : Option String) : Option String :=
  genRaw.bind fun raw =>
    let a := pyStrip raw
    let a := if "answer:".data.isPrefixOf (lowerStr a).data then pyStrip (pyDrop a 7) else a
    if isValidAnswer a then some a else none

/-- The `"not found"` synonyms rejected from generated answers. -/
def notFoundSynonyms : List String :=
  ["not found", "not found.", "unknown", "just not found"]

/-- Embeds `RAGService.query` given the retrieval results for this (question,
loan id) and the raw outputs of the two model pipelines.  Total function:
every extraction failure is returned as a zero-confidence result, never
raised. -/
def query (question : String) (results : List SearchResult)
    (qaRaw : Option QARaw) (genRaw : Option String) : QueryResult :=
  if results = [] then
    { question := question, answer := "No documents indexed for this loan.",
      confidence := 0, sources := [] }
  else
    let context := buildContext results
    if pyStrip context = "" then
      { question := question, answer := "No relevant content found in documents.",
        confidence := 0, sources := [] }
    else
      let qa := extractWithQA qaRaw
      if qa.1 ≠ none ∧ 3/5 < qa.2 then
        { question := question, answer := qa.1.getD "", confidence := qa.2,
          sources := formatSources results }
      else
        match generateAnswer genRaw with
        | some g =>
          if lowerStr g ∉ notFoundSynonyms then
            { question := question, answer := g, confidence := 7/10,
              sources := formatSources results }
          else match qa.1 with
            | some a =>
              { question := question, answer := a, confidence := qa.2,
                sources := formatSources results }
            | none =>
              { question := question,
                answer := "Could not extract a clear answer from the documents.",
                confidence := 0, sources := formatSources results }
        | none =>
          match qa.1 with
          | some a =>
            { question := question, answer := a, confidence := qa.2,
              sources := formatSources results }
          | none =>
            { question := question,
              answer := "Could not extract a clear answer from the documents.",
              confidence := 0, sources := formatSources results }

/-! ## Chunker (`app/ai_services/document_processor.py`,
`DocumentProcessor._create_chunks`)

The Python loop slides a window over `words = text.split()`; each step
emits `words[start:end]` with `end = min(start + CHUNK_SIZE, len(words))`
and advances to `end - CHUNK_OVERLAP` while `end < len(words)`.  Because
every position in the loop is relative to the current start index, the
loop is embedded as recursion on the remaining word suffix, with fuel
`words.length` (each step consumes at least `size - overlap ≥ 1` words
when `overlap < size`, so the fuel never runs out; the fuel guard stands
in for the loop's divergence when `overlap ≥ size`). -/

/-- One step worth of chunk word lists, fuelled. -/
def createChunksGo (size overlap : Nat) : Nat → List String → List (List String)
  | 0, _ => []
  | _ + 1, [] => []
  | fuel + 1, w :: rest =>
    if size < (w :: rest).length ∧ overlap < size then
      (w :: rest).take size ::
        createChunksGo size overlap fuel ((w :: rest).drop (size - overlap))
    else [(w :: rest).take size]

/-- Embeds `DocumentProcessor._create_chunks` on the word sequence: the ordered
list of chunk word lists (each chunk's text is their `' '`-join). -/
def createChunks (size overlap : Nat) (ws : List String) : List (List String) :=
  createChunksGo size overlap ws.length ws

/-- A document chunk as produced by `_create_chunks`. -/
structure DocumentChunk where
  text : String
  chunk_index : Nat
  source_file : String
  doc_type : String
  deriving DecidableEq, Repr

/-- Embeds `DocumentProcessor._create_chunks` with the metadata attached. -/
def createDocumentChunks (size overlap : Nat) (ws : List String)
    (filename doc_type : String) : List DocumentChunk :=
  (createChunks size overlap ws).enum.map fun p =>
    { text := String.intercalate " " p.2, chunk_index := p.1,
      source_file := filename, doc_type := doc_type }

/-! ## Vector Store (`app/ai_services/embedding.py`, `EmbeddingService`)

The sentence-transformer is abstracted as an `encode` parameter; the
FAISS `IndexFlatIP` is a list of vectors (only its length matters to the
claims).  `add_chunks` appends the embeddings and the metadata entries;
`clear_loan` rebuilds both from the surviving entries. -/

/-- An embedding vector. -/
abbrev Vec := List ℚ

/-- One metadata entry stored alongside a vector. -/
structure MetaEntry where
  loan_id : ℤ
  text : String
  source : String
  page : Option ℕ
  doc_type : String
  deriving DecidableEq, Repr

/-- An input chunk for `add_chunks` (the `text` attribute plus the
`metadata` dict fields read by the service). -/
structure InputChunk where
  text : String
  source : String := ""
  page : Option ℕ := none
  doc_type : String := ""
  deriving DecidableEq, Repr

/-- The mutable state of `EmbeddingService`: the FAISS index vectors and
the parallel metadata list. -/
structure EmbState where
  index : List Vec
  metadata : List MetaEntry
  deriving DecidableEq, Repr

/-- The parallel-structure invariant of the vector store. -/
def EmbState.inv (st : EmbState) : Prop := st.index.length = st.metadata.length

/-- Embeds `EmbeddingService.add_chunks`: embed all chunk texts, append the
vectors to the index and one metadata entry per chunk, and return the
state with the number of chunks added. -/
def addChunks (encode : String → Vec) (st : EmbState)
    (chunks : List InputChunk) (loan_id : ℤ) : EmbState × Nat :=
  if chunks = [] then (st, 0)
  else
    let texts := chunks.map (·.text)
    let embs := texts.map encode
    ({ index := st.index ++ embs,
       metadata := st.metadata ++ chunks.map fun c =>
         { loan_id := loan_id, text := c.text, source := c.source,
           page := c.page, doc_type := c.doc_type } },
     chunks.length)

/-- Embeds `EmbeddingService.clear_loan`: keep the metadata of other loans,
return 0 and leave the state untouched if nothing is removed, otherwise
rebuild the index from the surviving texts.  Returns the removed count. -/
def clearLoan (encode : String → Vec) (st : EmbState) (loan_id : ℤ) :
    EmbState × Nat :=
  let keep := st.metadata.filter fun m => m.loan_id ≠ loan_id
  let removed := st.metadata.length - keep.length
  if removed = 0 then (st, 0)
  else ({ index := keep.map fun m => encode m.text, metadata := keep }, removed)

/-! ## Compliance Rules Engine (`app/services/glp_rules.py`, `GLPRulesEngine`)

Keyword tables are taken from `app/core/config.py`.  The result records
keep the fields any claim inspects (statuses, risk levels, indicator
lists, assessment/recommendation texts); free-prose `notes` strings and
the audit `issues`/`recommendations` accumulators of
`assess_glp_eligibility` are omitted as no claim mentions them. -/

inductive RiskLevel where
  | low | medium | high
  deriving DecidableEq, Repr

/-- Ordering low < medium < high used by the monotonicity claims. -/
def RiskLevel.rank : RiskLevel → Nat
  | .low => 0
  | .medium => 1
  | .high => 2

inductive DNSHStatus where
  | pass | fail | unclear
  deriving DecidableEq, Repr

/-- Structured loan fields read by the rules and scoring engines
(`project_data` dict entries; `none` models an absent key). -/
structure ProjectData where
  org_name : Option String := none
  project_name : Option String := none
  amount_requested : Option ℚ := none
  currency : Option String := none
  planned_start_date : Option String := none
  shareholder_entities : Option String := none
  document_count : ℕ := 0
  use_of_proceeds : Option String := none
  sector : Option String := none
  location : Option String := none
  project_type : Option String := none
  deriving DecidableEq, Repr

def GLP_CATEGORIES : List String :=
  ["Renewable Energy", "Energy Efficiency", "Pollution Prevention and Control",
   "Environmentally Sustainable Management of Living Natural Resources and Land Use",
   "Terrestrial and Aquatic Biodiversity Conservation", "Clean Transportation",
   "Sustainable Water and Wastewater Management", "Climate Change Adaptation",
   "Eco-efficient and/or Circular Economy Adapted Products", "Green Buildings"]

def CARBON_LOCKIN_INDICATORS : List String :=
  ["fossil fuel", "coal", "oil drilling", "natural gas infrastructure",
   "carbon capture retrofit for fossil", "gas pipeline", "LNG terminal"]

def HIGH_RISK_SECTORS : List String :=
  ["Fossil fuel utilities", "Oil & gas", "Mining and quarrying", "Chemicals",
   "Agriculture, forestry, and fishing", "Transportation and storage",
   "Construction materials", "Heavy Industry", "Aviation"]

/-- Embeds `validate_use_of_proceeds` green keyword list. -/
def greenKeywords : List String :=
  ["renewable", "solar", "wind", "hydro", "efficiency", "emission reduction",
   "clean", "sustainable", "recycling", "biodiversity", "conservation", "green",
   "low carbon", "electric vehicle", "public transport", "water treatment"]

/-- Embeds `validate_use_of_proceeds` red-flag list. -/
def redFlags : List String :=
  ["fossil fuel expansion", "coal", "oil exploration",
   "mining without remediation", "deforestation"]

/-- Embeds `_map_to_glp_category` keyword table, in source (dict insertion) order. -/
def categoryMapping : List (String × List String) :=
  [("Renewable Energy",
    ["wind turbine", "solar panel", "solar farm", "hydropower", "geothermal",
     "biomass", "renewable energy", "wind farm"]),
   ("Energy Efficiency",
    ["energy efficiency", "retrofit", "led lighting", "hvac upgrade",
     "smart meter", "building management", "insulation"]),
   ("Clean Transportation",
    ["electric vehicle", "ev charging", "public transit", "rail",
     "bicycle infrastructure", "hydrogen fuel", "fleet electrification"]),
   ("Green Buildings",
    ["green building", "leed certified", "breeam", "net zero",
     "sustainable construction", "eco-friendly building"]),
   ("Sustainable Water and Wastewater Management",
    ["water treatment", "desalination", "wastewater", "water recycling",
     "stormwater management", "water efficiency"]),
   ("Pollution Prevention and Control",
    ["emission control", "air quality", "pollution reduction", "waste management",
     "hazardous waste", "soil remediation"]),
   ("Climate Change Adaptation",
    ["flood defense", "climate resilience", "drought management",
     "coastal protection", "climate adaptation"])]

/-- Embeds `GLPRulesEngine._map_to_glp_category`: count keyword hits per category
over `use_of_proceeds + " " + sector` lowered, score
`min(0.95, 0.5 + 0.15·hits)` when there is a hit, and keep the first
strictly-best category, defaulting to `("Unknown", 0)`. -/
def mapToGlpCategory (use_of_proceeds sector : String) : String × ℚ :=
  let text := lowerStr (use_of_proceeds ++ " " ++ sector)
  categoryMapping.foldl
    (fun best p =>
      let hits := (p.2.filter fun kw => pyIn kw text).length
      if 0 < hits then
        let score := min (95/100 : ℚ) (1/2 + hits * (15/100))
        if best.2 < score then (p.1, score) else best
      else best)
    ("Unknown", 0)

/-- Result of `validate_use_of_proceeds` (the fields later checks read). -/
structure UopResult where
  is_valid : Bool
  glp_category : String
  confidence : ℚ
  green_indicators : List String
  red_flags : List String
  deriving DecidableEq, Repr

/-- Embeds `GLPRulesEngine.validate_use_of_proceeds`. -/
def validateUseOfProceeds (use_of_proceeds sector : String) : UopResult :=
  let use_lower := lowerStr use_of_proceeds
  let green_matches := greenKeywords.filter fun kw => pyIn kw use_lower
  let red_matches := redFlags.filter fun rf => pyIn rf use_lower
  let cat := mapToGlpCategory use_of_proceeds sector
  { is_valid := !green_matches.isEmpty && red_matches.isEmpty,
    glp_category := cat.1, confidence := cat.2,
    green_indicators := green_matches, red_flags := red_matches }

/-- Embeds `_check_climate_mitigation` status (FAIL on a negative-emissions
phrase, PASS on a positive phrase with no negative one, else UNCLEAR). -/
def checkClimateMitigation (text : String) : DNSHStatus :=
  let negative := ["increased emissions", "coal", "fossil fuel expansion"]
  let positive := ["emission reduction", "carbon neutral", "net zero", "renewable"]
  if negative.any fun i => pyIn i text then .fail
  else if positive.any fun i => pyIn i text then .pass
  else .unclear

/-- Embeds `_check_climate_adaptation` status. -/
def checkClimateAdaptation (text location : String) : DNSHStatus :=
  let resilience := ["climate resilient", "flood protection", "drought resistant",
                     "weather resilient", "climate risk assessment"]
  let vulnerability := ["flood zone", "coastal area", "hurricane", "wildfire"]
  let has_resilience := resilience.any fun i => pyIn i text
  let has_vulnerability := vulnerability.any fun i => pyIn i location || pyIn i text
  if has_vulnerability && !has_resilience then .unclear else .pass

/-- Embeds `_check_water_use` status. -/
def checkWaterUse (text sector location : String) : DNSHStatus :=
  let intensive := ["mining", "textile", "agriculture", "data center", "cooling"]
  let positive := ["water recycling", "rainwater", "water efficiency",
                   "water conservation"]
  let stressed := ["desert", "arid", "drought", "water scarcity"]
  let is_intensive := intensive.any fun i => pyIn i sector || pyIn i text
  let has_mitigation := positive.any fun i => pyIn i text
  let in_stressed := stressed.any fun i => pyIn i location || pyIn i text
  if is_intensive && in_stressed && !has_mitigation then .fail
  else if is_intensive && !has_mitigation then .unclear
  else .pass

/-- Embeds `_check_circular_economy` status. -/
def checkCircularEconomy (text : String) : DNSHStatus :=
  let linear := ["single use", "disposable", "landfill"]
  let circular := ["recycling", "reuse", "circular", "waste reduction", "recyclable"]
  let has_linear := linear.any fun i => pyIn i text
  let has_circular := circular.any fun i => pyIn i text
  if has_linear && !has_circular then .fail else .pass

/-- Embeds `_check_pollution` status. -/
def checkPollution (text sector : String) : DNSHStatus :=
  let polluting := ["chemical", "manufacturing", "mining", "oil", "refinery"]
  let control := ["emission control", "pollution prevention", "air quality", "filter"]
  let is_polluting := polluting.any fun s => pyIn s (lowerStr sector)
  let has_controls := control.any fun i => pyIn i text
  if is_polluting && !has_controls then .unclear else .pass

/-- Embeds `_check_biodiversity` status. -/
def checkBiodiversity (text location : String) : DNSHStatus :=
  let sensitive := ["protected area", "nature reserve", "national park", "wetland",
                    "endangered species", "primary forest", "unesco"]
  let positive := ["biodiversity", "habitat restoration", "conservation",
                   "environmental impact assessment", "eia approved"]
  let in_sensitive := sensitive.any fun i => pyIn i location || pyIn i text
  let has_protection := positive.any fun i => pyIn i text
  if in_sensitive && !has_protection then .fail
  else if has_protection then .pass
  else .pass

/-- The lowered combined text `use_of_proceeds + " " + extracted_text`
shared by `assess_dnsh` and `assess_carbon_lockin`. -/
def combinedText (pd : ProjectData) (extracted : String) : String :=
  lowerStr (pd.use_of_proceeds.getD "" ++ " " ++ extracted)

/-- Embeds `GLPRulesEngine.assess_dnsh`: the six criterion statuses, in the
order of the source's result dict. -/
def assessDnsh (pd : ProjectData) (extracted : String) : List DNSHStatus :=
  let text := combinedText pd extracted
  let location := lowerStr (pd.location.getD "")
  let sector := lowerStr (pd.sector.getD "")
  [checkClimateMitigation text,
   checkClimateAdaptation text location,
   checkWaterUse text sector location,
   checkCircularEconomy text,
   checkPollution text sector,
   checkBiodiversity text location]

/-- Embeds `get_dnsh_summary` fields. -/
structure DnshSummary where
  overall_pass : Bool
  passed_count : ℕ
  failed_count : ℕ
  unclear_count : ℕ
  deriving DecidableEq, Repr

/-- Embeds `GLPRulesEngine.get_dnsh_summary`. -/
def getDnshSummary (results : List DNSHStatus) : DnshSummary :=
  let failed := (results.filter (· = .fail)).length
  { overall_pass := failed = 0,
    passed_count := (results.filter (· = .pass)).length,
    failed_count := failed,
    unclear_count := (results.filter (· = .unclear)).length }

/-- Embeds `CarbonLockinResult`. -/
structure CarbonLockinResult where
  risk_level : RiskLevel
  indicators_found : List String
  assessment : String
  recommendation : String
  deriving DecidableEq, Repr

/-- The transition-plan phrase list of `assess_carbon_lockin`. -/
def transitionIndicators : List String :=
  ["transition", "phase out", "decommission", "renewable replacement",
   "electrification", "hydrogen transition"]

/-- The lock-in indicator phrases found in the combined text. -/
def indicatorsFoundIn (pd : ProjectData) (extracted : String) : List String :=
  CARBON_LOCKIN_INDICATORS.filter fun i => pyIn (lowerStr i) (combinedText pd extracted)

/-- Whether a high-risk sector name occurs (lowered) inside the project's
sector string. -/
def isHighRiskSector (pd : ProjectData) : Bool :=
  HIGH_RISK_SECTORS.any fun s => pyIn (lowerStr s) (lowerStr (pd.sector.getD ""))

/-- Whether a transition-plan phrase occurs in the combined text. -/
def hasTransitionPlan (pd : ProjectData) (extracted : String) : Bool :=
  transitionIndicators.any fun t => pyIn t (combinedText pd extracted)

/-- Embeds `GLPRulesEngine.assess_carbon_lockin`. -/
def assessCarbonLockin (pd : ProjectData) (extracted : String) : CarbonLockinResult :=
  let indicators_found := indicatorsFoundIn pd extracted
  if 2 ≤ indicators_found.length ∨ (indicators_found ≠ [] ∧ isHighRiskSector pd = true) then
    { risk_level := .high, indicators_found := indicators_found,
      assessment := "High carbon lock-in risk identified. Indicators: " ++
        String.intercalate ", " indicators_found ++
        ". This investment may delay climate transition and create stranded asset risk.",
      recommendation :=
        "Consider alternative low-carbon investments or require detailed transition plan." }
  else if indicators_found ≠ [] ∨ isHighRiskSector pd = true then
    if hasTransitionPlan pd extracted then
      { risk_level := .medium, indicators_found := indicators_found,
        assessment := "Moderate carbon lock-in risk with transition elements identified. Project includes some transition planning.",
        recommendation := "Require detailed transition timeline and interim targets." }
    else
      { risk_level := .medium, indicators_found := indicators_found,
        assessment := "Moderate carbon lock-in risk. Sector or activity may pose transition risk.",
        recommendation := "Request transition strategy and alignment with Paris Agreement targets." }
  else
    { risk_level := .low, indicators_found := indicators_found,
      assessment := "Low carbon lock-in risk. No significant fossil fuel infrastructure identified.",
      recommendation := "Standard monitoring applies." }

/-- Embeds `GlpEligibilityResult` (audit prose lists omitted). -/
structure GlpEligibilityResult where
  is_eligible : Bool
  category : String
  confidence : ℚ
  use_of_proceeds_valid : Bool
  dnsh_pass : Bool
  carbon_lockin_risk : RiskLevel
  deriving DecidableEq, Repr

/-- Embeds `GLPRulesEngine.assess_glp_eligibility`. -/
def assessGlpEligibility (pd : ProjectData) (extracted : String) : GlpEligibilityResult :=
  let uop := validateUseOfProceeds (pd.use_of_proceeds.getD "") (pd.sector.getD "")
  let dnsh := getDnshSummary (assessDnsh pd extracted)
  let lockin := assessCarbonLockin pd extracted
  { is_eligible := uop.is_valid && dnsh.overall_pass && !(lockin.risk_level = .high),
    category := uop.glp_category, confidence := uop.confidence,
    use_of_proceeds_valid := uop.is_valid, dnsh_pass := dnsh.overall_pass,
    carbon_lockin_risk := lockin.risk_level }

/-! ## ESG Scoring Engine (`app/services/scoring.py`, `ESGScoringEngine`)

Weights come from `Settings` (0.20 / 0.25 / 0.25).  The Python presence
test `value is not None and value != '' and value != 0` is split by field
type: for the five string-valued required fields it is `≠ none ∧ ≠ some ""`
(a Python string never equals `0`), for `amount_requested` it is
`≠ none ∧ ≠ some 0` (a number never equals `''`). -/

/-- Presence test for a string-valued required field. -/
def presentStr (v : Option String) : Bool := v ≠ none ∧ v ≠ some ""

/-- Presence test for the numeric `amount_requested` field. -/
def presentNum (v : Option ℚ) : Bool := v ≠ none ∧ v ≠ some 0

/-- The per-field presence flags over `REQUIRED_FIELDS`, in config order
(`org_name, project_name, amount_requested, currency, planned_start_date,
shareholder_entities`). -/
def requiredPresent (pd : ProjectData) : List Bool :=
  [presentStr pd.org_name, presentStr pd.project_name,
   presentNum pd.amount_requested, presentStr pd.currency,
   presentStr pd.planned_start_date, presentStr pd.shareholder_entities]

/-- The score arithmetic of `calculate_completeness_score`: base
`present/6·100`, plus the +10 document bonus capped at 100. -/
def completenessFromCount (present_count document_count : ℕ) : ℚ :=
  let score := (present_count : ℚ) / 6 * 100
  if 0 < document_count then min 100 (score + 10) else score

/-- Embeds `ESGScoringEngine.calculate_completeness_score` (score component). -/
def calculateCompletenessScore (pd : ProjectData) : ℚ :=
  completenessFromCount ((requiredPresent pd).count true) pd.document_count

/-- An extracted claim (only its confidence is read by scoring). -/
structure ExtractedClaim where
  confidence : ℚ := 0
  deriving DecidableEq, Repr

/-- Embeds `ESGScoringEngine.calculate_verifiability_score`. -/
def calculateVerifiabilityScore (claims : List ExtractedClaim) : ℚ :=
  if claims = [] then 50
  else
    let verified := (claims.filter fun c => (6/10 : ℚ) ≤ c.confidence).length
    (verified : ℚ) / claims.length * 100

/-- Embeds `ESGScoringEngine.calculate_glp_alignment_score`. -/
def calculateGlpAlignmentScore (pd : ProjectData) (extracted_text : String) : ℚ :=
  let e := assessGlpEligibility pd extracted_text
  let score : ℚ := if e.is_eligible then 40 * e.confidence else 10
  let score := if e.category ∈ GLP_CATEGORIES then score + 20 * e.confidence else score
  let mop_text := lowerStr (pd.use_of_proceeds.getD "" ++ " " ++ extracted_text)
  let score := if pyIn "tracking" mop_text || pyIn "allocation" mop_text
               then score + 20 else score
  let score := if pyIn "annual report" mop_text || pyIn "disclosure" mop_text
               then score + 20 else score
  min 100 score

/-- Embeds `ESGScoringEngine.calculate_dnsh_penalty` (penalty component). -/
def calculateDnshPenalty (pd : ProjectData) (extracted_text : String) : ℚ :=
  let summary := getDnshSummary (assessDnsh pd extracted_text)
  if !summary.overall_pass then 30 else summary.unclear_count * 5

/-- Embeds `ESGScoringEngine.calculate_carbon_penalty` (penalty component). -/
def calculateCarbonPenalty (pd : ProjectData) (extracted_text : String) : ℚ :=
  match (assessCarbonLockin pd extracted_text).risk_level with
  | .high => 20
  | .medium => 10
  | .low => 0

/-- Embeds `ESGScore` (breakdown dict omitted). -/
structure ESGScore where
  total_score : ℚ
  completeness_score : ℚ
  verifiability_score : ℚ
  glp_alignment_score : ℚ
  dnsh_penalty : ℚ
  carbon_penalty : ℚ
  grade : String
  recommendations : List String
  deriving DecidableEq, Repr

/-- The grade bands of `calculate_composite_score`. -/
def gradeOf (total : ℚ) : String :=
  if 90 ≤ total then "A+" else if 80 ≤ total then "A" else if 70 ≤ total then "B"
  else if 60 ≤ total then "C" else if 50 ≤ total then "D" else "F"

/-- Embeds `ESGScoringEngine.calculate_composite_score`. -/
def calculateCompositeScore (pd : ProjectData) (claims : List ExtractedClaim)
    (extracted_text : String) : ESGScore :=
  let comp := calculateCompletenessScore pd
  let verif := calculateVerifiabilityScore claims
  let glp := calculateGlpAlignmentScore pd extracted_text
  let dnsh_p := calculateDnshPenalty pd extracted_text
  let carbon_p := calculateCarbonPenalty pd extracted_text
  let total := max 0 (min 100 (comp * (20/100) + verif * (25/100) + glp * (25/100)
                                - dnsh_p - carbon_p))
  let recs :=
    (if comp < 80 then ["Improve data completeness"] else []) ++
    (if verif < 60 then ["Upload supporting documents"] else []) ++
    (if 0 < dnsh_p then ["Address DNSH concerns"] else [])
  { total_score := qRound1 total, completeness_score := qRound1 comp,
    verifiability_score := qRound1 verif, glp_alignment_score := qRound1 glp,
    dnsh_penalty := dnsh_p, carbon_penalty := carbon_p,
    grade := gradeOf total,
    recommendations := if recs = [] then ["Strong ESG profile"] else recs }

/-! ## SPT calibration (`app/ai_services/metrics.py`, `calculate_spt_metrics`)

The CAGR uses a genuine real exponentiation (`** (1/years)`), so this
module works over `ℝ` (classically, hence `noncomputable`); the sector
benchmark lookup stays rational.  The `try: float(target_reduction)` of
the source always succeeds here because the input is already numeric. -/

/-- One entry of `SECTOR_CARBON_BENCHMARKS`. -/
structure Benchmark where
  intensity : ℚ
  risk : String
  pathway_target_2030 : ℚ
  deriving DecidableEq, Repr

/-- Embeds `SECTOR_CARBON_BENCHMARKS`, in source (dict insertion) order. -/
def SECTOR_CARBON_BENCHMARKS : List (String × Benchmark) :=
  [("Fossil fuel utilities", ⟨2500, "high", 1500⟩),
   ("Oil & gas", ⟨2200, "high", 1200⟩),
   ("Mining and quarrying", ⟨1800, "high", 1000⟩),
   ("Chemicals", ⟨1200, "high", 700⟩),
   ("Heavy Industry", ⟨1500, "high", 900⟩),
   ("Aviation", ⟨1100, "high", 650⟩),
   ("Transportation and storage", ⟨800, "medium", 450⟩),
   ("Construction materials", ⟨900, "medium", 500⟩),
   ("Agriculture, forestry, and fishing", ⟨600, "medium", 350⟩),
   ("Construction", ⟨400, "medium", 250⟩),
   ("Manufacturing of machinery and equipment", ⟨350, "medium", 200⟩),
   ("Food and beverage", ⟨300, "medium", 180⟩),
   ("Water supply, sewerage and waste management", ⟨250, "medium", 150⟩),
   ("Wholesale and retail trade", ⟨150, "low", 90⟩),
   ("Real estate activities", ⟨120, "low", 70⟩),
   ("Healthcare services", ⟨100, "low", 60⟩),
   ("Information technology services", ⟨80, "low", 50⟩),
   ("Financial and insurance activities", ⟨50, "low", 30⟩),
   ("Education services", ⟨40, "low", 25⟩),
   ("Renewable energy", ⟨20, "low", 10⟩),
   ("Professional, scientific and technical services", ⟨60, "low", 35⟩)]

def DEFAULT_BENCHMARK : Benchmark := ⟨200, "medium", 120⟩

/-- Embeds `get_sector_benchmark`: exact key match first, then the first entry
whose lowered key contains or is contained in the lowered sector (the
empty sector therefore matches the first entry, as in Python, where
`"" in key` is true), else the default. -/
def getSectorBenchmark (sector : String) : Benchmark :=
  match SECTOR_CARBON_BENCHMARKS.find? (fun p => p.1 = sector) with
  | some p => p.2
  | none =>
    match SECTOR_CARBON_BENCHMARKS.find? (fun p =>
        pyIn (lowerStr p.1) (lowerStr sector) || pyIn (lowerStr sector) (lowerStr p.1)) with
    | some p => p.2
    | none => DEFAULT_BENCHMARK

/-- Python `round(x, 2)` on a real. -/
noncomputable def rRound2 (x : ℝ) : ℝ := (⌊x * 100 + 1/2⌋ : ℤ) / 100

/-- Python `round(x, 1)` on a real. -/
noncomputable def rRound1 (x : ℝ) : ℝ := (⌊x * 10 + 1/2⌋ : ℤ) / 10

/-- Embeds `SPTMetrics`. -/
structure SPTMetrics where
  baseline_emissions : ℝ
  target_emissions : ℝ
  target_year : ℤ
  reduction_percentage : ℝ
  annual_reduction_rate : ℝ
  is_science_based : Bool
  ambition_level : String
  pathway_alignment : ℝ

open scoped Classical in
/-- Embeds `calculate_spt_metrics`. -/
noncomputable def calculateSptMetrics (total_emissions : ℝ)
    (target_reduction : Option ℝ) (baseline_year : Option ℤ)
    (target_year : ℤ) (sector : String) : Option SPTMetrics :=
  if target_reduction = none ∨ target_reduction = some 0 ∨ total_emissions = 0 then
    none
  else
    let reduction_pct := target_reduction.getD 0
    let target_emissions := total_emissions * (1 - reduction_pct / 100)
    let base_year : ℤ := match baseline_year with
      | none => 2025
      | some y => if y = 0 then 2025 else y
    let years_to_target : ℤ := max 1 (target_year - base_year)
    let annual_rate : ℝ :=
      if 0 < total_emissions ∧ 0 ≤ target_emissions then
        (1 - (target_emissions / total_emissions) ^ ((1 : ℝ) / (years_to_target : ℝ))) * 100
      else 0
    let ambition : String :=
      if 7 ≤ annual_rate then "science-based"
      else if 42/10 ≤ annual_rate then "ambitious"
      else if 5/2 ≤ annual_rate then "moderate"
      else "low"
    let benchmark := getSectorBenchmark sector
    let pathway_target : ℝ := (benchmark.pathway_target_2030 : ℝ)
    let current_benchmark : ℝ := (benchmark.intensity : ℝ)
    let pathway_alignment : ℝ :=
      if 0 < current_benchmark then
        let required_reduction := (current_benchmark - pathway_target) / current_benchmark * 100
        if 0 < required_reduction then min 100 (reduction_pct / required_reduction * 100)
        else 100
      else 50
    some
      { baseline_emissions := total_emissions,
        target_emissions := rRound2 target_emissions,
        target_year := target_year,
        reduction_percentage := reduction_pct,
        annual_reduction_rate := rRound2 annual_rate,
        is_science_based := if 42/10 ≤ annual_rate then true else false,
        ambition_level := ambition,
        pathway_alignment := rRound1 pathway_alignment }

/-! ## Shared concrete inputs used by counterexamples and witnesses -/

/-- A project-data dict with no keys set. -/
def pd0 : ProjectData := {}

/-- A one-chunk retrieval result list with non-blank text. -/
def res0 : List SearchResult :=
  [{ text := "The loan will finance new equipment for the factory.",
     source := "doc.pdf", score := 9/10 }]

/-- A single zero-confidence extracted claim. -/
def claims0 : List ExtractedClaim := [{ confidence := 0 }]

/-- A project-data dict with every required field present. -/
def pdW : ProjectData :=
  { org_name := some "Acme", project_name := some "Plant", amount_requested := some 5,
    currency := some "USD", planned_start_date := some "2026-01-01",
    shareholder_entities := some "Acme Holdings" }

/-- A single full-confidence extracted claim. -/
def claimsW : List ExtractedClaim := [{ confidence := 1 }]

/-! ## Claims about the Extraction Engine -/

/-- C8: whenever the vector-store search returns no chunks, `query`
returns the explicit no-documents answer with confidence exactly 0 and an
empty sources list; the embedded `query` is a total function, so no
exception is raised on this path. -/
theorem c8_no_documents_result (question : String) (qaRaw : Option QARaw)
    (genRaw : Option String) :
    query question [] qaRaw genRaw =
      { question := question, answer := "No documents indexed for this loan.",
        confidence := 0, sources := [] } := rfl

/-- C10: whenever `query` answers from the generative fallback (the
extractive pass was not accepted at the 0.6 gate, the generated answer
passed the validity filter and is no "not found" synonym), the reported
confidence is the constant 0.7, independent of retrieval scores and of
the model output. -/
theorem c10_generative_confidence_is_07 (question : String)
    (results : List SearchResult) (qaRaw : Option QARaw) (genRaw : Option String)
    (g : String)
    (hres : results ≠ [])
    (hctx : pyStrip (buildContext results) ≠ "")
    (hqa : ¬((extractWithQA qaRaw).1 ≠ none ∧ 3/5 < (extractWithQA qaRaw).2))
    (hgen : generateAnswer genRaw = some g)
    (hnf : lowerStr g ∉ notFoundSynonyms) :
    query question results qaRaw genRaw =
      { question := question, answer := g, confidence := 7/10,
        sources := formatSources results } := by
  unfold query
  rw [if_neg hres, if_neg hctx, if_neg hqa]
  simp only [hgen]
  rw [if_pos hnf]

unseal Rat.add Rat.sub Rat.mul Rat.inv in
/-- Witness for C10 at a concrete retrieval list and model outputs. -/
theorem c10_witness :
    query "q" res0 (some { answer := "x", score := 0 })
        (some "The project installs solar farms") =
      { question := "q", answer := "The project installs solar farms",
        confidence := 7/10, sources := formatSources res0 } :=
  c10_generative_confidence_is_07 "q" res0 (some { answer := "x", score := 0 })
    (some "The project installs solar farms") "The project installs solar farms"
    (by decide) (by decide) (by decide) (by decide) (by decide)

unseal Rat.add Rat.sub Rat.mul Rat.inv in
/-- C1 counterexample: at QA-pipeline confidence exactly 0.5 the
extractive pass produced a valid answer whose confidence does not exceed
0.6, retrieval returned a chunk, the context is non-empty and the
generative fallback produced only a "not found" synonym, yet `query`
returns the could-not-extract result with confidence 0 instead of the
extractive answer — the QA pass itself discards any answer at score
≤ 0.5 (`rag.py` line 172), so the claimed "also when it is 0.5 or below"
fails. -/
theorem c1_counterexample :
    isValidAnswer (pyStrip "finance new equipment") = true ∧
    ((1 : ℚ)/2 ≤ 3/5) ∧
    pyStrip (buildContext res0) ≠ "" ∧
    generateAnswer (some "Not found") = some "Not found" ∧
    lowerStr "Not found" ∈ notFoundSynonyms ∧
    (query "What is the use of proceeds?" res0
        (some { answer := "finance new equipment", score := 1/2 })
        (some "Not found")).answer =
      "Could not extract a clear answer from the documents." ∧
    (query "What is the use of proceeds?" res0
        (some { answer := "finance new equipment", score := 1/2 })
        (some "Not found")).confidence = 0 := by
  decide

/-- C1 (amended): the last-resort fallback returns the extractive answer
with its original confidence only when that confidence exceeds the QA
pass's internal 0.5 acceptance gate (and does not exceed 0.6); at
confidence 0.5 or below the QA pass yields no answer and `query` falls
through to the could-not-extract result. -/
theorem c1_last_resort_fallback (question : String) (results : List SearchResult)
    (qa : QARaw) (genRaw : Option String)
    (hres : results ≠ [])
    (hctx : pyStrip (buildContext results) ≠ "")
    (hvalid : isValidAnswer (pyStrip qa.answer) = true)
    (hlo : 1/2 < qa.score)
    (hhi : qa.score ≤ 3/5)
    (hgen : ∀ g, generateAnswer genRaw = some g → lowerStr g ∈ notFoundSynonyms) :
    query question results (some qa) genRaw =
      { question := question, answer := pyStrip qa.answer, confidence := qa.score,
        sources := formatSources results } := by
  unfold query
  rw [if_neg hres, if_neg hctx]
  have hqa : extractWithQA (some qa) = (some (pyStrip qa.answer), qa.score) := by
    show (if 1/2 < qa.score ∧ isValidAnswer (pyStrip qa.answer) = true
          then (some (pyStrip qa.answer), qa.score) else (none, 0)) = _
    rw [if_pos ⟨hlo, hvalid⟩]
  rw [hqa]
  rw [if_neg (by
    rintro ⟨-, h⟩
    exact absurd h (not_lt.mpr hhi))]
  cases hg : generateAnswer genRaw with
  | none => rfl
  | some g =>
    show (if lowerStr g ∉ notFoundSynonyms then
            ({ question := question, answer := g, confidence := 7/10,
               sources := formatSources results } : QueryResult)
          else
            { question := question, answer := pyStrip qa.answer, confidence := qa.score,
              sources := formatSources results }) =
         ({ question := question, answer := pyStrip qa.answer, confidence := qa.score,
            sources := formatSources results } : QueryResult)
    rw [if_neg (by simpa using hgen g hg)]

unseal Rat.add Rat.sub Rat.mul Rat.inv in
/-- Witness for the amended C1 at QA confidence 0.55. -/
theorem c1_witness :
    query "What is the use of proceeds?" res0
        (some { answer := "finance new equipment", score := 55/100 })
        (some "Not found") =
      { question := "What is the use of proceeds?",
        answer := pyStrip "finance new equipment", confidence := 55/100,
        sources := formatSources res0 } :=
  c1_last_resort_fallback "What is the use of proceeds?" res0
    { answer := "finance new equipment", score := 55/100 } (some "Not found")
    (by decide) (by decide) (by decide) (by norm_num) (by norm_num)
    (by
      intro g hg
      have h : generateAnswer (some "Not found") = some "Not found" := by decide
      rw [h] at hg
      cases hg
      decide)

/-! ## Claim about the Chunker -/

/-- With enough fuel, the chunker emits at least one chunk on a
non-empty word list. -/
theorem createChunksGo_ne_nil (size overlap fuel : Nat) (w : String)
    (rest : List String) :
    createChunksGo size overlap (fuel + 1) (w :: rest) ≠ [] := by
  simp only [createChunksGo]
  split <;> simp

/-- Fuelled coverage: reassembling the first `size - overlap` words of
every non-final chunk and all words of the final chunk recovers the word
list, for any sufficient fuel. -/
theorem createChunksGo_coverage (size overlap : Nat) (hov : overlap < size) :
    ∀ (fuel : Nat) (ws : List String), ws.length ≤ fuel →
    ((createChunksGo size overlap fuel ws).dropLast.map fun c => c.take (size - overlap)).join
        ++ ((createChunksGo size overlap fuel ws).getLast?.getD []) = ws := by
  intro fuel
  induction fuel with
  | zero =>
    intro ws h
    have hnil : ws = [] := List.eq_nil_of_length_eq_zero (Nat.le_zero.mp h)
    subst hnil
    simp [createChunksGo]
  | succ n ih =>
    intro ws h
    cases ws with
    | nil => simp [createChunksGo]
    | cons w rest =>
      simp only [createChunksGo]
      by_cases hc : size < (w :: rest).length ∧ overlap < size
      · rw [if_pos hc]
        have hstep : 1 ≤ size - overlap := by omega
        have htail_len : ((w :: rest).drop (size - overlap)).length ≤ n := by
          rw [List.length_drop]
          have := h
          simp only [List.length_cons] at this ⊢
          omega
        have htail_ne : (w :: rest).drop (size - overlap) ≠ [] := by
          have hlt : size - overlap < (w :: rest).length := by
            have := hc.1
            omega
          intro hnil
          have := List.length_drop (size - overlap) (w :: rest)
          rw [hnil] at this
          simp only [List.length_nil] at this
          omega
        have hne : createChunksGo size overlap n ((w :: rest).drop (size - overlap)) ≠ [] := by
          cases htl : (w :: rest).drop (size - overlap) with
          | nil => exact absurd htl htail_ne
          | cons x xs =>
            cases n with
            | zero =>
              rw [htl] at htail_len
              simp at htail_len
            | succ m =>
              exact createChunksGo_ne_nil size overlap m x xs
        rw [List.dropLast_cons_of_ne_nil hne]
        have hlast : ((w :: rest).take size ::
            createChunksGo size overlap n ((w :: rest).drop (size - overlap))).getLast?
            = (createChunksGo size overlap n ((w :: rest).drop (size - overlap))).getLast? := by
          cases hcg : createChunksGo size overlap n ((w :: rest).drop (size - overlap)) with
          | nil => exact absurd hcg hne
          | cons c cs => rw [List.getLast?_cons_cons]
        rw [hlast]
        simp only [List.map_cons, List.join_cons, List.append_assoc]
        rw [ih _ htail_len]
        rw [List.take_take, min_eq_left (by omega : size - overlap ≤ size)]
        exact List.take_append_drop (size - overlap) (w :: rest)
      · rw [if_neg hc]
        have hlen : (w :: rest).length ≤ size := by
          rcases not_and_or.mp hc with h1 | h2
          · omega
          · exact absurd hov h2
        simp only [List.dropLast_single, List.map_nil, List.join_nil,
          List.getLast?_singleton, Option.getD_some, List.nil_append]
        exact List.take_of_length_le hlen

/-- C3: for every configuration with `overlap < chunk_size`, the
concatenation of the first `chunk_size - overlap` words of each
non-final chunk followed by the final chunk's full word list equals the
original word sequence, and the empty text yields no chunks. -/
theorem c3_chunk_coverage (size overlap : Nat) (hov : overlap < size)
    (ws : List String) :
    ((createChunks size overlap ws).dropLast.map fun c => c.take (size - overlap)).join
        ++ ((createChunks size overlap ws).getLast?.getD []) = ws ∧
    createChunks size overlap [] = [] := by
  refine ⟨?_, rfl⟩
  exact createChunksGo_coverage size overlap hov ws.length ws le_rfl

/-- Witness for C3 with `chunk_size = 3`, `overlap = 1` on a five-word
text (chunks `[a b c]`, `[c d e]`). -/
theorem c3_witness :
    ((createChunks 3 1 ["a", "b", "c", "d", "e"]).dropLast.map fun c => c.take (3 - 1)).join
        ++ ((createChunks 3 1 ["a", "b", "c", "d", "e"]).getLast?.getD [])
      = ["a", "b", "c", "d", "e"] ∧
    createChunks 3 1 [] = [] :=
  c3_chunk_coverage 3 1 (by decide) ["a", "b", "c", "d", "e"]

/-! ## Claim about the Vector Store -/

/-- C4: the vector-store operations preserve the parallel-structure
invariant: `add_chunks` grows the index and the metadata list by exactly
the number of chunks added (also returned), and `clear_loan` leaves both
equal to the number of surviving other-loan entries. -/
theorem c4_parallel_structure_invariant :
    (∀ (encode : String → Vec) (st : EmbState) (chunks : List InputChunk) (lid : ℤ),
      (addChunks encode st chunks lid).1.index.length
          = st.index.length + chunks.length ∧
      (addChunks encode st chunks lid).1.metadata.length
          = st.metadata.length + chunks.length ∧
      (addChunks encode st chunks lid).2 = chunks.length) ∧
    (∀ (encode : String → Vec) (st : EmbState) (lid : ℤ),
      st.inv →
      (clearLoan encode st lid).1.inv ∧
      (clearLoan encode st lid).1.metadata.length
          = (st.metadata.filter fun m => m.loan_id ≠ lid).length) := by
  constructor
  · intro encode st chunks lid
    unfold addChunks
    by_cases h : chunks = []
    · subst h; simp
    · rw [if_neg h]; simp
  · intro encode st lid hinv
    unfold clearLoan
    by_cases h : st.metadata.length - (st.metadata.filter fun m => m.loan_id ≠ lid).length = 0
    · rw [if_pos h]
      have hle : (st.metadata.filter fun m => m.loan_id ≠ lid).length ≤ st.metadata.length :=
        List.length_filter_le _ _
      have heq : (st.metadata.filter fun m => m.loan_id ≠ lid).length = st.metadata.length :=
        le_antisymm hle (by omega)
      exact ⟨hinv, by rw [heq]⟩
    · rw [if_neg h]
      constructor
      · show (List.map _ _).length = _
        rw [List.length_map]
      · rfl

/-- Witness for C4's `clear_loan` part on a concrete one-entry store. -/
theorem c4_witness :
    (clearLoan (fun _ => [1])
        { index := [[1]], metadata := [{ loan_id := 1, text := "t", source := "",
                                         page := none, doc_type := "" }] } 1).1.inv ∧
    (clearLoan (fun _ => [1])
        { index := [[1]], metadata := [{ loan_id := 1, text := "t", source := "",
                                         page := none, doc_type := "" }] } 1).1.metadata.length
      = (([{ loan_id := 1, text := "t", source := "", page := none,
             doc_type := "" }] : List MetaEntry).filter fun m => m.loan_id ≠ 1).length :=
  c4_parallel_structure_invariant.2 (fun _ => [1])
    { index := [[1]], metadata := [{ loan_id := 1, text := "t", source := "",
                                     page := none, doc_type := "" }] } 1 rfl

/-! ## Claim about the completeness sub-score -/

/-- Flipping one presence flag from false to true raises the true-count
by exactly one. -/
theorem count_true_flip (a b d e f : Bool) :
    ([a, b, true, d, e, f].count true) = ([a, b, false, d, e, f].count true) + 1 := by
  cases a <;> cases b <;> cases d <;> cases e <;> cases f <;> decide

/-- A six-flag list with one flag false has at most five true flags. -/
theorem count_true_le_five (a b d e f : Bool) :
    ([a, b, false, d, e, f].count true) ≤ 5 := by
  cases a <;> cases b <;> cases d <;> cases e <;> cases f <;> decide

/-- The completeness score is strictly monotone in the present-field
count (the +10 bonus and 100 cap never collapse a one-field gap, because
at most 5 of 6 fields are present on the smaller side). -/
theorem completenessFromCount_strict (c₁ c₂ d : ℕ) (h : c₁ < c₂) (h6 : c₂ ≤ 6) :
    completenessFromCount c₁ d < completenessFromCount c₂ d := by
  unfold completenessFromCount
  have hcast : (c₁ : ℚ) < (c₂ : ℚ) := by exact_mod_cast h
  have hs : (c₁ : ℚ) / 6 * 100 < (c₂ : ℚ) / 6 * 100 := by linarith
  by_cases hd : 0 < d
  · rw [if_pos hd, if_pos hd]
    have h5 : (c₁ : ℚ) ≤ 5 := by exact_mod_cast (by omega : c₁ ≤ 5)
    have hlt100 : (c₁ : ℚ) / 6 * 100 + 10 < 100 := by linarith
    rw [min_eq_right (le_of_lt hlt100)]
    exact lt_min (by linarith) (by linarith)
  · rw [if_neg hd, if_neg hd]
    exact hs

/-- C9: in the completeness sub-score a required field whose value is 0
or the empty string counts as absent exactly like a missing field, and a
loan with `amount_requested = 0` scores strictly lower than one with any
non-zero amount, all else equal. -/
theorem c9_zero_and_empty_count_as_missing :
    (∀ pd : ProjectData,
      calculateCompletenessScore { pd with amount_requested := some 0 }
        = calculateCompletenessScore { pd with amount_requested := none }) ∧
    (∀ pd : ProjectData,
      calculateCompletenessScore { pd with currency := some "" }
        = calculateCompletenessScore { pd with currency := none }) ∧
    (∀ (pd : ProjectData) (q : ℚ), q ≠ 0 →
      calculateCompletenessScore { pd with amount_requested := some 0 }
        < calculateCompletenessScore { pd with amount_requested := some q }) := by
  have hp0 : presentNum (some 0) = false := rfl
  refine ⟨?_, ?_, ?_⟩
  · intro pd
    unfold calculateCompletenessScore
    have h : requiredPresent { pd with amount_requested := some 0 }
        = requiredPresent { pd with amount_requested := none } := by
      simp [requiredPresent, hp0]
      rfl
    rw [h]
  · intro pd
    unfold calculateCompletenessScore
    have h : requiredPresent { pd with currency := some "" }
        = requiredPresent { pd with currency := none } := by
      simp [requiredPresent]
      rfl
    rw [h]
  · intro pd q hq
    unfold calculateCompletenessScore
    have hpq : presentNum (some q) = true := by
      simp [presentNum, hq]
    have h₁ : requiredPresent { pd with amount_requested := some 0 }
        = [presentStr pd.org_name, presentStr pd.project_name, false,
           presentStr pd.currency, presentStr pd.planned_start_date,
           presentStr pd.shareholder_entities] := by
      simp [requiredPresent, hp0]
    have h₂ : requiredPresent { pd with amount_requested := some q }
        = [presentStr pd.org_name, presentStr pd.project_name, true,
           presentStr pd.currency, presentStr pd.planned_start_date,
           presentStr pd.shareholder_entities] := by
      simp [requiredPresent, hpq]
    rw [h₁, h₂, count_true_flip]
    exact completenessFromCount_strict _ _ _ (Nat.lt_succ_self _)
      (by
        have := count_true_le_five (presentStr pd.org_name) (presentStr pd.project_name)
          (presentStr pd.currency) (presentStr pd.planned_start_date)
          (presentStr pd.shareholder_entities)
        omega)

unseal Rat.add Rat.sub Rat.mul Rat.inv in
/-- Witness for C9 at an all-missing project with amount 0 versus 5. -/
theorem c9_witness :
    calculateCompletenessScore { pd0 with amount_requested := some 0 }
      < calculateCompletenessScore { pd0 with amount_requested := some 5 } :=
  c9_zero_and_empty_count_as_missing.2.2 pd0 5 (by norm_num)

/-! ## Claim about the composite ESG score -/

/-- Rounding to one decimal preserves nonnegativity. -/
theorem qRound1_nonneg {x : ℚ} (h : 0 ≤ x) : 0 ≤ qRound1 x := by
  unfold qRound1
  have hz : (0:ℤ) ≤ ⌊x * 10 + 1/2⌋ := Int.le_floor.mpr (by push_cast; linarith)
  have : (0:ℚ) ≤ (⌊x * 10 + 1/2⌋ : ℚ) := by exact_mod_cast hz
  linarith

/-- Rounding to one decimal preserves the 100 bound. -/
theorem qRound1_le_100 {x : ℚ} (h : x ≤ 100) : qRound1 x ≤ 100 := by
  unfold qRound1
  have hz : ⌊x * 10 + 1/2⌋ < 1001 := Int.floor_lt.mpr (by push_cast; linarith)
  have : (⌊x * 10 + 1/2⌋ : ℚ) ≤ 1000 := by exact_mod_cast (by omega : ⌊x * 10 + 1/2⌋ ≤ 1000)
  linarith

/-- Rounding to one decimal is monotone. -/
theorem qRound1_mono {x y : ℚ} (h : x ≤ y) : qRound1 x ≤ qRound1 y := by
  unfold qRound1
  have hz : ⌊x * 10 + 1/2⌋ ≤ ⌊y * 10 + 1/2⌋ := Int.floor_le_floor (by linarith)
  have : (⌊x * 10 + 1/2⌋ : ℚ) ≤ (⌊y * 10 + 1/2⌋ : ℚ) := by exact_mod_cast hz
  linarith

/-- A gap of at least 5 survives rounding to one decimal. -/
theorem qRound1_strict {x y : ℚ} (h : x + 5 ≤ y) : qRound1 x < qRound1 y := by
  unfold qRound1
  have h1 : ⌊x * 10 + 1/2⌋ ≤ ⌊(y * 10 + 1/2) - (50:ℤ)⌋ :=
    Int.floor_le_floor (by push_cast; linarith)
  rw [Int.floor_sub_int] at h1
  have h2 : ⌊x * 10 + 1/2⌋ < ⌊y * 10 + 1/2⌋ := by omega
  have : (⌊x * 10 + 1/2⌋ : ℚ) < (⌊y * 10 + 1/2⌋ : ℚ) := by exact_mod_cast h2
  linarith

/-- A positive rounded value forces the unrounded value above 1/20. -/
theorem qRound1_pos {x : ℚ} (h : 0 < qRound1 x) : 1/20 ≤ x := by
  unfold qRound1 at h
  have hz : 0 < ⌊x * 10 + 1/2⌋ := by
    by_contra hle
    push_neg at hle
    have : (⌊x * 10 + 1/2⌋ : ℚ) ≤ 0 := by exact_mod_cast hle
    linarith
  have h1 : ((1:ℤ) : ℚ) ≤ x * 10 + 1/2 := Int.le_floor.mp hz
  push_cast at h1
  linarith

/-- The completeness sub-score never exceeds 100. -/
theorem completeness_le_100 (pd : ProjectData) : calculateCompletenessScore pd ≤ 100 := by
  unfold calculateCompletenessScore completenessFromCount
  have hc : (requiredPresent pd).count true ≤ 6 := by
    have h := List.count_le_length (true) (requiredPresent pd)
    simpa [requiredPresent] using h
  have hcast : ((requiredPresent pd).count true : ℚ) ≤ 6 := by exact_mod_cast hc
  by_cases hd : 0 < pd.document_count
  · rw [if_pos hd]
    exact min_le_left _ _
  · rw [if_neg hd]
    linarith

/-- The verifiability sub-score never exceeds 100. -/
theorem verifiability_le_100 (claims : List ExtractedClaim) :
    calculateVerifiabilityScore claims ≤ 100 := by
  unfold calculateVerifiabilityScore
  by_cases h : claims = []
  · rw [if_pos h]; norm_num
  · rw [if_neg h]
    have hlen : 0 < (claims.length : ℚ) := by
      have : 0 < claims.length := List.length_pos.mpr h
      exact_mod_cast this
    have hle : (claims.filter fun c => (6/10 : ℚ) ≤ c.confidence).length ≤ claims.length :=
      List.length_filter_le _ _
    have hcast : ((claims.filter fun c => (6/10 : ℚ) ≤ c.confidence).length : ℚ)
        ≤ (claims.length : ℚ) := by exact_mod_cast hle
    rw [div_mul_eq_mul_div, div_le_iff hlen]
    linarith

/-- The GLP alignment sub-score never exceeds 100. -/
theorem glpAlignment_le_100 (pd : ProjectData) (t : String) :
    calculateGlpAlignmentScore pd t ≤ 100 := by
  unfold calculateGlpAlignmentScore
  exact min_le_left _ _

/-- The DNSH penalty is a natural multiple of 5. -/
theorem dnshPenalty_mul5 (pd : ProjectData) (t : String) :
    ∃ k : ℕ, calculateDnshPenalty pd t = 5 * (k : ℚ) := by
  unfold calculateDnshPenalty
  by_cases hb : (getDnshSummary (assessDnsh pd t)).overall_pass = true
  · rw [if_neg (by simp [hb])]
    exact ⟨(getDnshSummary (assessDnsh pd t)).unclear_count, by ring⟩
  · rw [if_pos (by simp [Bool.not_eq_true] at hb ⊢; exact hb)]
    exact ⟨6, by norm_num⟩

/-- The carbon penalty is a natural multiple of 5. -/
theorem carbonPenalty_mul5 (pd : ProjectData) (t : String) :
    ∃ k : ℕ, calculateCarbonPenalty pd t = 5 * (k : ℚ) := by
  unfold calculateCarbonPenalty
  cases hrl : (assessCarbonLockin pd t).risk_level with
  | high => exact ⟨4, by norm_num⟩
  | medium => exact ⟨2, by norm_num⟩
  | low => exact ⟨0, by norm_num⟩

/-- The clamp-then-round total is antitone in the penalty and strictly
so while it stays positive, for any weighted score at most 70 and
penalties that are 5 apart. -/
theorem clampRound_mono_strict (W P₁ P₂ : ℚ)
    (hW : W ≤ 70) (hP₁ : 0 ≤ P₁) (h5 : P₁ + 5 ≤ P₂) :
    qRound1 (max 0 (min 100 (W - P₂))) ≤ qRound1 (max 0 (min 100 (W - P₁))) ∧
    (0 < qRound1 (max 0 (min 100 (W - P₁))) →
      qRound1 (max 0 (min 100 (W - P₂))) < qRound1 (max 0 (min 100 (W - P₁)))) := by
  have hmin₁ : min 100 (W - P₁) = W - P₁ := min_eq_right (by linarith)
  have hmin₂ : min 100 (W - P₂) = W - P₂ := min_eq_right (by linarith)
  rw [hmin₁, hmin₂]
  constructor
  · exact qRound1_mono (max_le_max le_rfl (by linarith))
  · intro hpos
    have h20 : 1/20 ≤ max 0 (W - P₁) := qRound1_pos hpos
    have hWP₁ : 1/20 ≤ W - P₁ := by
      rcases le_or_lt (W - P₁) 0 with hle | hlt
      · rw [max_eq_left hle] at h20; linarith
      · exact (max_eq_right (le_of_lt hlt)) ▸ h20
    have hA : max 0 (W - P₁) = W - P₁ := max_eq_right (by linarith)
    rw [hA] at hpos ⊢
    rcases le_or_lt (W - P₂) 0 with h2 | h2
    · rw [max_eq_left h2]
      have h0 : qRound1 0 = 0 := by unfold qRound1; norm_num
      rw [h0]
      exact hpos
    · rw [max_eq_right (le_of_lt h2)]
      exact qRound1_strict (by linarith)

unseal Rat.add Rat.sub Rat.mul Rat.inv in
/-- C2 counterexample: two inputs with identical sub-scores (same empty
project data and zero-confidence claim, texts "coal" and
"coal fossil fuel") where the carbon penalty is strictly larger on the
second, yet both total scores clamp to 0 — the strict decrease claimed
for all inputs fails at the 0 floor. -/
theorem c2_counterexample :
    calculateGlpAlignmentScore pd0 "coal" = calculateGlpAlignmentScore pd0 "coal fossil fuel" ∧
    calculateDnshPenalty pd0 "coal" = calculateDnshPenalty pd0 "coal fossil fuel" ∧
    calculateCarbonPenalty pd0 "coal" < calculateCarbonPenalty pd0 "coal fossil fuel" ∧
    (calculateCompositeScore pd0 claims0 "coal").total_score = 0 ∧
    (calculateCompositeScore pd0 claims0 "coal fossil fuel").total_score = 0 := by
  decide

/-- C2 (amended): every composite total score lies in [0, 100]; and for
two inputs with equal completeness, verifiability and GLP-alignment
sub-scores and componentwise larger penalties (one strictly), the total
score never increases, and strictly decreases whenever the
smaller-penalty total score is positive (at the 0 floor both totals
clamp to 0). -/
theorem c2_score_bounds_and_penalty_monotonicity :
    (∀ (pd : ProjectData) (claims : List ExtractedClaim) (text : String),
      0 ≤ (calculateCompositeScore pd claims text).total_score ∧
      (calculateCompositeScore pd claims text).total_score ≤ 100) ∧
    (∀ (pd₁ pd₂ : ProjectData) (cl₁ cl₂ : List ExtractedClaim) (t₁ t₂ : String),
      calculateCompletenessScore pd₁ = calculateCompletenessScore pd₂ →
      calculateVerifiabilityScore cl₁ = calculateVerifiabilityScore cl₂ →
      calculateGlpAlignmentScore pd₁ t₁ = calculateGlpAlignmentScore pd₂ t₂ →
      calculateDnshPenalty pd₁ t₁ ≤ calculateDnshPenalty pd₂ t₂ →
      calculateCarbonPenalty pd₁ t₁ ≤ calculateCarbonPenalty pd₂ t₂ →
      (calculateDnshPenalty pd₁ t₁ < calculateDnshPenalty pd₂ t₂ ∨
        calculateCarbonPenalty pd₁ t₁ < calculateCarbonPenalty pd₂ t₂) →
      (calculateCompositeScore pd₂ cl₂ t₂).total_score
          ≤ (calculateCompositeScore pd₁ cl₁ t₁).total_score ∧
      (0 < (calculateCompositeScore pd₁ cl₁ t₁).total_score →
        (calculateCompositeScore pd₂ cl₂ t₂).total_score
            < (calculateCompositeScore pd₁ cl₁ t₁).total_score)) := by
  constructor
  · intro pd claims text
    simp only [calculateCompositeScore]
    constructor
    · exact qRound1_nonneg (le_max_left _ _)
    · exact qRound1_le_100 (max_le (by norm_num) (min_le_left _ _))
  · intro pd₁ pd₂ cl₁ cl₂ t₁ t₂ hc hv hg hd hcar hstrict
    obtain ⟨a₁, ha₁⟩ := dnshPenalty_mul5 pd₁ t₁
    obtain ⟨a₂, ha₂⟩ := dnshPenalty_mul5 pd₂ t₂
    obtain ⟨b₁, hb₁⟩ := carbonPenalty_mul5 pd₁ t₁
    obtain ⟨b₂, hb₂⟩ := carbonPenalty_mul5 pd₂ t₂
    have haa : a₁ ≤ a₂ := by
      rw [ha₁, ha₂] at hd
      exact_mod_cast (by linarith : (a₁:ℚ) ≤ a₂)
    have hbb : b₁ ≤ b₂ := by
      rw [hb₁, hb₂] at hcar
      exact_mod_cast (by linarith : (b₁:ℚ) ≤ b₂)
    have hsum : a₁ + b₁ + 1 ≤ a₂ + b₂ := by
      rcases hstrict with hstr | hstr
      · rw [ha₁, ha₂] at hstr
        have : a₁ < a₂ := by exact_mod_cast (by linarith : (a₁:ℚ) < a₂)
        omega
      · rw [hb₁, hb₂] at hstr
        have : b₁ < b₂ := by exact_mod_cast (by linarith : (b₁:ℚ) < b₂)
        omega
    have h5 : (calculateDnshPenalty pd₁ t₁ + calculateCarbonPenalty pd₁ t₁) + 5
        ≤ calculateDnshPenalty pd₂ t₂ + calculateCarbonPenalty pd₂ t₂ := by
      rw [ha₁, ha₂, hb₁, hb₂]
      have : ((a₁ + b₁ : ℕ) : ℚ) + 1 ≤ ((a₂ + b₂ : ℕ) : ℚ) := by exact_mod_cast hsum
      push_cast at this
      linarith
    have hP₁ : 0 ≤ calculateDnshPenalty pd₁ t₁ + calculateCarbonPenalty pd₁ t₁ := by
      rw [ha₁, hb₁]
      positivity
    have hW : calculateCompletenessScore pd₁ * (20/100)
        + calculateVerifiabilityScore cl₁ * (25/100)
        + calculateGlpAlignmentScore pd₁ t₁ * (25/100) ≤ 70 := by
      have h1 := completeness_le_100 pd₁
      have h2 := verifiability_le_100 cl₁
      have h3 := glpAlignment_le_100 pd₁ t₁
      linarith
    have key := clampRound_mono_strict
      (calculateCompletenessScore pd₁ * (20/100)
        + calculateVerifiabilityScore cl₁ * (25/100)
        + calculateGlpAlignmentScore pd₁ t₁ * (25/100))
      (calculateDnshPenalty pd₁ t₁ + calculateCarbonPenalty pd₁ t₁)
      (calculateDnshPenalty pd₂ t₂ + calculateCarbonPenalty pd₂ t₂)
      hW hP₁ h5
    simp only [calculateCompositeScore]
    rw [← hc, ← hv, ← hg, sub_sub, sub_sub]
    exact key

unseal Rat.add Rat.sub Rat.mul Rat.inv in
/-- Witness for the amended C2: a fully-filled project whose sector
moves from outside to inside the high-risk list, raising the carbon
penalty from 0 to 10 and dropping the total from 42.5 to 32.5. -/
theorem c2_witness :
    (calculateCompositeScore { pdW with sector := some "Aviation" } claimsW "").total_score
        ≤ (calculateCompositeScore pdW claimsW "").total_score ∧
    (0 < (calculateCompositeScore pdW claimsW "").total_score →
      (calculateCompositeScore { pdW with sector := some "Aviation" } claimsW "").total_score
          < (calculateCompositeScore pdW claimsW "").total_score) :=
  c2_score_bounds_and_penalty_monotonicity.2 pdW { pdW with sector := some "Aviation" }
    claimsW claimsW "" "" (by decide) rfl (by decide) (by decide) (by decide)
    (Or.inr (by decide))

/-! ## Claims about carbon lock-in -/

/-- The risk level computed by `assess_carbon_lockin`, characterised by
the indicator count and the sector flag alone. -/
theorem assessCarbonLockin_risk_level (pd : ProjectData) (extracted : String) :
    (assessCarbonLockin pd extracted).risk_level =
      if 2 ≤ (indicatorsFoundIn pd extracted).length ∨
          ((indicatorsFoundIn pd extracted) ≠ [] ∧ isHighRiskSector pd = true) then .high
      else if (indicatorsFoundIn pd extracted) ≠ [] ∨ isHighRiskSector pd = true then .medium
      else .low := by
  unfold assessCarbonLockin
  by_cases h1 : 2 ≤ (indicatorsFoundIn pd extracted).length ∨
      ((indicatorsFoundIn pd extracted) ≠ [] ∧ isHighRiskSector pd = true)
  · rw [if_pos h1, if_pos h1]
  · rw [if_neg h1, if_neg h1]
    by_cases h2 : (indicatorsFoundIn pd extracted) ≠ [] ∨ isHighRiskSector pd = true
    · rw [if_pos h2, if_pos h2]
      by_cases h3 : hasTransitionPlan pd extracted = true
      · rw [if_pos h3]
      · rw [if_neg h3]
    · rw [if_neg h2, if_neg h2]

/-- The indicator list reported by `assess_carbon_lockin` is always the
scan result, in every branch. -/
theorem assessCarbonLockin_indicators (pd : ProjectData) (extracted : String) :
    (assessCarbonLockin pd extracted).indicators_found = indicatorsFoundIn pd extracted := by
  unfold assessCarbonLockin
  by_cases h1 : 2 ≤ (indicatorsFoundIn pd extracted).length ∨
      ((indicatorsFoundIn pd extracted) ≠ [] ∧ isHighRiskSector pd = true)
  · rw [if_pos h1]
  · rw [if_neg h1]
    by_cases h2 : (indicatorsFoundIn pd extracted) ≠ [] ∨ isHighRiskSector pd = true
    · rw [if_pos h2]
      by_cases h3 : hasTransitionPlan pd extracted = true
      · rw [if_pos h3]
      · rw [if_neg h3]
    · rw [if_neg h2]

/-- C6 counterexample: adding the transition phrase "phase out" to the
text keeps the indicator list, the risk level and therefore the claimed
invariants, but changes the `assessment` field too — not only the
`recommendation` as the claim states. -/
theorem c6_counterexample :
    (assessCarbonLockin pd0 "coal").risk_level
        = (assessCarbonLockin pd0 "coal phase out").risk_level ∧
    (assessCarbonLockin pd0 "coal").indicators_found
        = (assessCarbonLockin pd0 "coal phase out").indicators_found ∧
    hasTransitionPlan pd0 "coal" = false ∧
    hasTransitionPlan pd0 "coal phase out" = true ∧
    (assessCarbonLockin pd0 "coal").assessment
        ≠ (assessCarbonLockin pd0 "coal phase out").assessment := by
  decide

/-- C6 (amended): the risk level is HIGH iff at least 2 indicators are
found or (at least 1 indicator and a high-risk sector); MEDIUM iff at
least one indicator or a high-risk sector is present and the HIGH
condition fails; LOW otherwise; and transition-plan phrases change only
the assessment and recommendation texts, never the level or the
indicator list (the level and indicators depend only on the indicator
scan and the sector flag). -/
theorem c6_lockin_classification (pd : ProjectData) (extracted : String) :
    ((assessCarbonLockin pd extracted).risk_level = .high ↔
      (2 ≤ (indicatorsFoundIn pd extracted).length ∨
        (1 ≤ (indicatorsFoundIn pd extracted).length ∧ isHighRiskSector pd = true))) ∧
    ((assessCarbonLockin pd extracted).risk_level = .medium ↔
      ((1 ≤ (indicatorsFoundIn pd extracted).length ∨ isHighRiskSector pd = true) ∧
        ¬(2 ≤ (indicatorsFoundIn pd extracted).length ∨
          (1 ≤ (indicatorsFoundIn pd extracted).length ∧ isHighRiskSector pd = true)))) ∧
    ((assessCarbonLockin pd extracted).risk_level = .low ↔
      ¬(1 ≤ (indicatorsFoundIn pd extracted).length ∨ isHighRiskSector pd = true)) ∧
    (∀ (pd' : ProjectData) (extracted' : String),
      indicatorsFoundIn pd' extracted' = indicatorsFoundIn pd extracted →
      isHighRiskSector pd' = isHighRiskSector pd →
      (assessCarbonLockin pd' extracted').risk_level
          = (assessCarbonLockin pd extracted).risk_level ∧
      (assessCarbonLockin pd' extracted').indicators_found
          = (assessCarbonLockin pd extracted).indicators_found) := by
  have hlen : (1 ≤ (indicatorsFoundIn pd extracted).length) ↔
      (indicatorsFoundIn pd extracted) ≠ [] := List.length_pos
  have himp : ¬((indicatorsFoundIn pd extracted) ≠ [] ∨ isHighRiskSector pd = true) →
      ¬(2 ≤ (indicatorsFoundIn pd extracted).length ∨
        ((indicatorsFoundIn pd extracted) ≠ [] ∧ isHighRiskSector pd = true)) := by
    intro h2
    rintro (h | ⟨h, hh⟩)
    · refine h2 (Or.inl ?_)
      intro hnil
      rw [hnil] at h
      simp at h
    · exact h2 (Or.inl h)
  refine ⟨?_, ?_, ?_, ?_⟩
  · rw [assessCarbonLockin_risk_level, hlen]
    by_cases h2 : (indicatorsFoundIn pd extracted) ≠ [] ∨ isHighRiskSector pd = true
    · by_cases h1 : 2 ≤ (indicatorsFoundIn pd extracted).length ∨
          ((indicatorsFoundIn pd extracted) ≠ [] ∧ isHighRiskSector pd = true) <;>
        simp [h1, h2]
    · simp [himp h2, h2]
  · rw [assessCarbonLockin_risk_level, hlen]
    by_cases h2 : (indicatorsFoundIn pd extracted) ≠ [] ∨ isHighRiskSector pd = true
    · by_cases h1 : 2 ≤ (indicatorsFoundIn pd extracted).length ∨
          ((indicatorsFoundIn pd extracted) ≠ [] ∧ isHighRiskSector pd = true) <;>
        simp [h1, h2]
    · simp [himp h2, h2]
  · rw [assessCarbonLockin_risk_level, hlen]
    by_cases h2 : (indicatorsFoundIn pd extracted) ≠ [] ∨ isHighRiskSector pd = true
    · by_cases h1 : 2 ≤ (indicatorsFoundIn pd extracted).length ∨
          ((indicatorsFoundIn pd extracted) ≠ [] ∧ isHighRiskSector pd = true) <;>
        simp [h1, h2]
    · simp [himp h2, h2]
  · intro pd' extracted' hind hhr
    constructor
    · rw [assessCarbonLockin_risk_level, assessCarbonLockin_risk_level, hind, hhr]
    · rw [assessCarbonLockin_indicators, assessCarbonLockin_indicators, hind]

/-- Witness for the amended C6: the transition-phrase-only text change
leaves level and indicator list unchanged, discharging the determinism
hypotheses at concrete inputs. -/
theorem c6_witness :
    (assessCarbonLockin pd0 "coal phase out").risk_level
        = (assessCarbonLockin pd0 "coal").risk_level ∧
    (assessCarbonLockin pd0 "coal phase out").indicators_found
        = (assessCarbonLockin pd0 "coal").indicators_found :=
  (c6_lockin_classification pd0 "coal").2.2.2 pd0 "coal phase out" (by decide) (by decide)

/-- C7: with the text and all other fields fixed, replacing a sector
outside the high-risk list by one inside it never lowers the computed
carbon lock-in risk level, in the order low < medium < high. -/
theorem c7_sector_risk_monotonicity (pd : ProjectData) (extracted : String)
    (s₁ s₂ : String)
    (h₁ : isHighRiskSector { pd with sector := some s₁ } = false)
    (h₂ : isHighRiskSector { pd with sector := some s₂ } = true) :
    ((assessCarbonLockin { pd with sector := some s₁ } extracted).risk_level).rank ≤
      ((assessCarbonLockin { pd with sector := some s₂ } extracted).risk_level).rank := by
  have hind : ∀ v : Option String,
      indicatorsFoundIn { pd with sector := v } extracted
        = indicatorsFoundIn pd extracted := fun _ => rfl
  rw [assessCarbonLockin_risk_level, assessCarbonLockin_risk_level,
      hind (some s₁), hind (some s₂), h₁, h₂]
  by_cases hl2 : 2 ≤ (indicatorsFoundIn pd extracted).length <;>
    by_cases hln : indicatorsFoundIn pd extracted = [] <;>
    simp [hl2, hln, RiskLevel.rank]

/-- Witness for C7: empty text, sector moved from "Renewable power" to
"Aviation" (low risk becomes medium). -/
theorem c7_witness :
    ((assessCarbonLockin { pd0 with sector := some "Renewable power" } "").risk_level).rank ≤
      ((assessCarbonLockin { pd0 with sector := some "Aviation" } "").risk_level).rank :=
  c7_sector_risk_monotonicity pd0 "" "Renewable power" "Aviation" (by decide) (by decide)

/-! ## Claim about SPT calibration -/

/-- Rational bracketing of the fifth root of 0.7, obtained by comparing
fifth powers. -/
theorem rpow_seventenths_bounds :
    (93105/100000 : ℝ) < (7/10 : ℝ) ^ ((1:ℝ)/5) ∧
    (7/10 : ℝ) ^ ((1:ℝ)/5) < (93125/100000 : ℝ) := by
  have hb : (0:ℝ) ≤ 7/10 := by norm_num
  have hx0 : (0:ℝ) < (7/10 : ℝ) ^ ((1:ℝ)/5) := Real.rpow_pos_of_pos (by norm_num) _
  have hx5 : ((7/10 : ℝ) ^ ((1:ℝ)/5)) ^ (5:ℕ) = 7/10 := by
    rw [← Real.rpow_natCast ((7/10 : ℝ) ^ ((1:ℝ)/5)) 5, ← Real.rpow_mul hb]
    norm_num
  constructor
  · by_contra hcon
    push_neg at hcon
    have h5 : ((7/10 : ℝ) ^ ((1:ℝ)/5)) ^ (5:ℕ) ≤ (93105/100000 : ℝ) ^ (5:ℕ) :=
      pow_le_pow_left (le_of_lt hx0) hcon 5
    rw [hx5] at h5
    norm_num at h5
  · by_contra hcon
    push_neg at hcon
    have h5 : (93125/100000 : ℝ) ^ (5:ℕ) ≤ ((7/10 : ℝ) ^ ((1:ℝ)/5)) ^ (5:ℕ) :=
      pow_le_pow_left (by norm_num) hcon 5
    rw [hx5] at h5
    norm_num at h5

/-- C5: on baseline 1000 tCO2e, 30% target reduction, baseline year
2025, target year 2030, `calculate_spt_metrics` returns target emissions
700, an annual CAGR reduction rate within 0.01 of 6.88%, a science-based
flag (rate ≥ 4.2) and ambition level "ambitious". -/
theorem c5_spt_scenario :
    ∃ m : SPTMetrics,
      calculateSptMetrics 1000 (some 30) (some 2025) 2030 "" = some m ∧
      m.target_emissions = 700 ∧
      |m.annual_reduction_rate - 688/100| ≤ 1/100 ∧
      m.is_science_based = true ∧
      m.ambition_level = "ambitious" := by
  obtain ⟨hxlo, hxhi⟩ := rpow_seventenths_bounds
  have hguard : ¬((some (30:ℝ)) = none ∨ (some (30:ℝ)) = some 0 ∨ (1000:ℝ) = 0) := by
    rintro (h | h | h)
    · exact Option.noConfusion h
    · rw [Option.some.injEq] at h
      norm_num at h
    · norm_num at h
  have hcond : (0:ℝ) < 1000 ∧ (0:ℝ) ≤ 1000 * (1 - 30/100) := by norm_num
  have harg : (1000 * (1 - 30/100) / 1000 : ℝ) = 7/10 := by norm_num
  have hyears : (((max 1 (2030 - 2025) : ℤ)) : ℝ) = 5 := by norm_num
  have hr_lo : (6875/1000 : ℝ) < (1 - (7/10 : ℝ) ^ ((1:ℝ)/5)) * 100 := by linarith
  have hr_hi : (1 - (7/10 : ℝ) ^ ((1:ℝ)/5)) * 100 < (6895/1000 : ℝ) := by linarith
  unfold calculateSptMetrics
  rw [if_neg hguard]
  refine ⟨_, rfl, ?_, ?_, ?_, ?_⟩
  · show rRound2 ((1000:ℝ) * (1 - 30/100)) = 700
    rw [show ((1000:ℝ) * (1 - 30/100)) = 700 by norm_num]
    unfold rRound2
    rw [show ((700:ℝ) * 100 + 1/2) = (70000:ℤ) + 1/2 by push_cast; ring]
    rw [Int.floor_int_add]
    norm_num
  · show |rRound2 (if (0:ℝ) < 1000 ∧ (0:ℝ) ≤ 1000 * (1 - 30/100) then
        (1 - (1000 * (1 - 30/100) / 1000) ^ ((1:ℝ) / ((max 1 (2030 - 2025) : ℤ) : ℝ))) * 100
      else 0) - 688/100| ≤ 1/100
    rw [if_pos hcond, harg, hyears]
    unfold rRound2
    have hfl_lo : (688:ℤ) ≤ ⌊(1 - (7/10 : ℝ) ^ ((1:ℝ)/5)) * 100 * 100 + 1/2⌋ := by
      apply Int.le_floor.mpr
      push_cast
      linarith
    have hfl_hi : ⌊(1 - (7/10 : ℝ) ^ ((1:ℝ)/5)) * 100 * 100 + 1/2⌋ ≤ 689 := by
      have hlt : ⌊(1 - (7/10 : ℝ) ^ ((1:ℝ)/5)) * 100 * 100 + 1/2⌋ < 690 := by
        apply Int.floor_lt.mpr
        push_cast
        linarith
      omega
    have hcast_lo : (688:ℝ) ≤ (⌊(1 - (7/10 : ℝ) ^ ((1:ℝ)/5)) * 100 * 100 + 1/2⌋ : ℝ) := by
      exact_mod_cast hfl_lo
    have hcast_hi : ((⌊(1 - (7/10 : ℝ) ^ ((1:ℝ)/5)) * 100 * 100 + 1/2⌋ : ℤ) : ℝ) ≤ 689 := by
      exact_mod_cast hfl_hi
    rw [abs_le]
    constructor
    · linarith
    · linarith
  · show (if (42/10 : ℝ) ≤ (if (0:ℝ) < 1000 ∧ (0:ℝ) ≤ 1000 * (1 - 30/100) then
        (1 - (1000 * (1 - 30/100) / 1000) ^ ((1:ℝ) / ((max 1 (2030 - 2025) : ℤ) : ℝ))) * 100
      else 0) then true else false) = true
    rw [if_pos hcond, harg, hyears]
    rw [if_pos (show (42/10 : ℝ) ≤ (1 - (7/10 : ℝ) ^ ((1:ℝ)/5)) * 100 by linarith)]
  · show (if (7:ℝ) ≤ (if (0:ℝ) < 1000 ∧ (0:ℝ) ≤ 1000 * (1 - 30/100) then
        (1 - (1000 * (1 - 30/100) / 1000) ^ ((1:ℝ) / ((max 1 (2030 - 2025) : ℤ) : ℝ))) * 100
      else 0) then "science-based"
      else if (42/10 : ℝ) ≤ (if (0:ℝ) < 1000 ∧ (0:ℝ) ≤ 1000 * (1 - 30/100) then
        (1 - (1000 * (1 - 30/100) / 1000) ^ ((1:ℝ) / ((max 1 (2030 - 2025) : ℤ) : ℝ))) * 100
      else 0) then "ambitious"
      else if (5/2 : ℝ) ≤ (if (0:ℝ) < 1000 ∧ (0:ℝ) ≤ 1000 * (1 - 30/100) then
        (1 - (1000 * (1 - 30/100) / 1000) ^ ((1:ℝ) / ((max 1 (2030 - 2025) : ℤ) : ℝ))) * 100
      else 0) then "moderate" else "low") = "ambitious"
    rw [if_pos hcond, harg, hyears]
    rw [if_neg (show ¬(7:ℝ) ≤ (1 - (7/10 : ℝ) ^ ((1:ℝ)/5)) * 100 by
      push_neg
      linarith)]
    rw [if_pos (show (42/10 : ℝ) ≤ (1 - (7/10 : ℝ) ^ ((1:ℝ)/5)) * 100 by linarith)]

end GLC
